import Mathlib

/-!
Verification development for the ChatFoundry chat completion gateway
(`app/routes/api/chat.$conversationId.tsx` and collaborators).

The gateway's request handler (`action`), its reasoning-extraction middleware
(`wrapGenerate` / `wrapStream`), and the persistence rows it writes are embedded
as executable Lean definitions; the theorems below settle the spec's claims
about them.

JavaScript strings are modelled as `String` where only equality and
`startsWith` matter, and as `List Char` where contiguous-substring search
(`String.prototype.includes`) matters.  Database reads (`findFirst`, `findMany`)
are `List.find?` / `List.filter` over row lists; the upstream model calls
(`generateObject`, `generateText`, `streamText`) are oracle outcomes carried in
the environment, since their internals live in provider SDKs outside the
repository.
-/

namespace ChatFoundry

/-! ### JavaScript string primitives -/

/-- JS `hay.includes(sub)`: `sub` occurs contiguously somewhere in `hay`. -/
def occursIn (sub : List Char) : List Char → Bool
  | [] => sub.isEmpty
  | c :: rest => sub.isPrefixOf (c :: rest) || occursIn sub rest

/-- JS `s.startsWith(p)`, computed on the character lists. -/
def jsStartsWith (s p : String) : Bool := p.data.isPrefixOf s.data

/-- The opening reasoning tag `"<think>"` used by the middleware. -/
def thinkTag : List Char := "<think>".data

/-- JS template-literal stringification of a possibly-`undefined` string:
`` `${x}` `` renders an absent value as the literal text `undefined`. -/
def jsTemplateString : Option (List Char) → List Char
  | some s => s
  | none => "undefined".data

/-! ### Reasoning-extraction middleware (custom middleware in the route file)

The `wrapGenerate`/`wrapStream` pair injects a missing `<think>` opening tag.
`wrapGenerate` runs on the non-streaming path; `wrapStream` pipes the upstream
chunk stream through a `TransformStream` with a cumulative `generatedText`
accumulator. -/

/-- `wrapGenerate` of the custom middleware.  `result.text` is optional in the
upstream result type, hence `Option`.  The guard is
`!result.text?.includes("<think>")`: optional chaining yields `undefined`
(falsy) when the text is absent, so the branch is taken both for absent text
and for text not containing the tag, and the template literal
`` `<think>${result.text}` `` stringifies an absent text as `"undefined"`. -/
def wrapGenerateText (text : Option (List Char)) : Option (List Char) :=
  let includesTag : Bool :=
    match text with
    | some s => occursIn thinkTag s
    | none => false
  if !includesTag then some (thinkTag ++ jsTemplateString text) else text

/-- One chunk of the upstream `LanguageModelV1` stream.  Text deltas carry
their text; every other chunk kind is opaque to the transform and is modelled
by its kind string only. -/
inductive StreamPart where
  | textDelta (textDelta : List Char)
  | otherChunk (kind : String)
deriving Repr, DecidableEq

/-- Whether a chunk is a `text-delta` chunk. -/
def isTextDelta : StreamPart → Bool
  | .textDelta _ => true
  | .otherChunk _ => false

/-- One `transform(chunk, controller)` step of the `wrapStream`
`TransformStream`.  Input: the cumulative `generatedText` and the chunk.
Output: the new `generatedText`, the chunks enqueued for this input chunk (in
order), and how many synthetic `<think>` chunks this step inserted. -/
def transformStep (generatedText : List Char) (chunk : StreamPart) :
    List Char × List StreamPart × Nat :=
  match chunk with
  | .textDelta d =>
    if !occursIn thinkTag generatedText then
      (generatedText ++ thinkTag ++ d, [.textDelta thinkTag, .textDelta d], 1)
    else
      (generatedText ++ d, [.textDelta d], 0)
  | .otherChunk k => (generatedText, [.otherChunk k], 0)

/-- Run the `wrapStream` transform over a whole chunk list, starting from
accumulated text `g`; returns the enqueued output chunks and the total number
of synthetic `<think>` insertions. -/
def runTransform (g : List Char) : List StreamPart → List StreamPart × Nat
  | [] => ([], 0)
  | c :: cs =>
    let s := transformStep g c
    let rest := runTransform s.1 cs
    (s.2.1 ++ rest.1, s.2.2 + rest.2)

/-- The text a raw upstream stream accumulates: concatenation of its
text-deltas. -/
def deltasText : List StreamPart → List Char
  | [] => []
  | .textDelta d :: cs => d ++ deltasText cs
  | .otherChunk _ :: cs => deltasText cs

/-! ### Data model

Rows of the relational tables as the gateway reads and writes them
(`chat_conversations`, `chat_messages`, `ai_models` joined with
`ai_providers`), restricted to the columns the gateway touches. -/

/-- A row of `chat_conversations` (columns read by the gateway). -/
structure Conversation where
  id : String
  title : String
  userId : String
  isDeleted : Bool
deriving Repr, DecidableEq

/-- An `ai_providers` row joined onto the model via `with: { provider: true }`. -/
structure Provider where
  slug : String
  azureOpenAIResourceName : Option String
deriving Repr, DecidableEq

/-- A row of `ai_models` with its provider.  `detailsHasReasoning` is the
optional `details?.hasReasoning` flag (the `details` JSON column may be null
and the field is optional inside it). -/
structure ModelConfig where
  id : String
  slug : String
  provider : Provider
  detailsHasReasoning : Option Bool
  isDeleted : Bool
deriving Repr, DecidableEq

/-- One typed content segment of a message (`parts` JSON column). -/
structure MessagePart where
  type : String
  text : String
deriving Repr, DecidableEq

/-- A stored row of `chat_messages` (columns the gateway reads back). -/
structure StoredMessage where
  id : String
  conversationId : String
  role : String
  parts : List MessagePart
  version : Nat
  isDeleted : Bool
deriving Repr, DecidableEq

/-- The client `UIMessage` carried in the request body. -/
structure UIMessage where
  id : String
  role : String
  parts : List MessagePart
deriving Repr, DecidableEq

/-- The POST body `{ message, id, modelId }` (`RequestProps`). -/
structure RequestProps where
  message : UIMessage
  id : String
  modelId : String
deriving Repr, DecidableEq

/-- A row the gateway inserts into `chat_messages`.  When the insert omits
`version`, the schema default `0` applies (`version: integer().notNull().default(0)`
in `domains/chat/messages.ts`); the streaming `onFinish` insert passes
`version: 1` explicitly. -/
structure InsertedMessage where
  conversationId : String
  role : String
  parts : List MessagePart
  version : Nat
  status : String
  referenceId : String
  hasUsageDetails : Bool
deriving Repr, DecidableEq

/-- One message of `finishData.response.messages` delivered to the streaming
`onFinish` callback. -/
structure FinishMessage where
  id : String
  role : String
  content : List MessagePart
deriving Repr, DecidableEq

/-- An upstream LLM call issued by the handler, in program order. -/
inductive UpstreamCall where
  | titleGeneration
  | textGeneration
deriving Repr, DecidableEq

/-- The JSON (or stream) body of the handler's response. -/
inductive ResponseBody where
  | errorBody (error : String)
  | successText (text : String)
  | successMessage (message : String)
  | stream
  | methodNotAllowed
deriving Repr, DecidableEq

/-- Observable outcome of one `action` invocation: HTTP status and body, the
`chat_messages` rows inserted (in order), the conversation-title update if one
was written, the upstream model calls attempted (in order), the conversation
soft-deleted by the DELETE branch if any, and whether the reasoning middleware
wrapped the model.  A bare object returned from the route action is serialized
with the framework default status 200; `data(body, s)` sets status `s`. -/
structure ActionResult where
  status : Nat
  body : ResponseBody
  inserted : List InsertedMessage := []
  titleUpdated : Option String := none
  calls : List UpstreamCall := []
  softDeletedConversation : Option String := none
  reasoningWrapped : Bool := false
deriving Repr, DecidableEq

/-- The stores and upstream-call outcomes one request runs against.  The three
model calls are oracles: `titleGen` is the `generateObject` title outcome,
`batchGen` the `generateText` outcome (its `text`), and `streamMessages` the
`finishData.response.messages` the stream's `onFinish` callback receives.
Errors carry the upstream error message, which the handler must not echo. -/
structure Env where
  conversations : List Conversation
  models : List ModelConfig
  messages : List StoredMessage
  titleGen : Except String String
  batchGen : Except String String
  streamMessages : List FinishMessage
deriving Repr

/-- The inbound request: method, route param, authenticated user (set by the
auth middleware), parsed JSON body, and the two toggle headers as
`headers.get` returns them (`none` = header absent). -/
structure Request where
  method : String
  conversationId : Option String
  userId : String
  body : RequestProps
  headerStream : Option String
  headerReasoning : Option String
deriving Repr

/-! ### The orchestrator (`action` in `chat.$conversationId.tsx`) -/

/-- The POST branch's `chatConversations.findFirst` predicate: matching id,
not soft-deleted, owned by the authenticated user. -/
def conversationQuery (cid uid : String) (c : Conversation) : Bool :=
  c.id == cid && !c.isDeleted && c.userId == uid

/-- The DELETE branch's ownership `findFirst` predicate (no soft-delete
filter in the source). -/
def deleteConversationQuery (cid uid : String) (c : Conversation) : Bool :=
  c.id == cid && c.userId == uid

/-- The `aiModels.findFirst` predicate: matching id, not soft-deleted. -/
def modelQuery (modelId : String) (m : ModelConfig) : Bool :=
  m.id == modelId && !m.isDeleted

/-- The `chatMessages.findMany` of the handler: messages of this conversation,
not soft-deleted, role ≠ "tool". -/
def previousMessagesFor (env : Env) (cid : String) : List StoredMessage :=
  env.messages.filter fun m =>
    m.conversationId == cid && !m.isDeleted && !(m.role == "tool")

/-- The handler's mapping of a stored row to a UI message for
`appendClientMessage` (tool roles collapse to assistant; unreached given the
query filter). -/
def storedToUIMessage (m : StoredMessage) : UIMessage :=
  { id := m.id
    role := if m.role == "tool" then "assistant" else m.role
    parts := m.parts }

/-- `appendClientMessage` from the ai SDK: append the client message, but
replace the last list element instead when it carries the same id (the SDK's
retry/edit behavior). -/
def appendClientMessage (messages : List UIMessage) (message : UIMessage) :
    List UIMessage :=
  match messages.getLast? with
  | some last =>
    if last.id = message.id then messages.dropLast ++ [message]
    else messages ++ [message]
  | none => [message]

/-- The message list the handler builds: prior non-tool, non-deleted rows of
the conversation, with the client message appended. -/
def messagesAfterAppend (env : Env) (cid : String) (clientMsg : UIMessage) :
    List UIMessage :=
  appendClientMessage ((previousMessagesFor env cid).map storedToUIMessage)
    clientMsg

/-- The title-synthesis trigger:
`messages.length === 1 || conversation.title.startsWith("[Chat]")`. -/
def titleTriggered (env : Env) (cid : String) (conversation : Conversation)
    (clientMsg : UIMessage) : Bool :=
  (messagesAfterAppend env cid clientMsg).length == 1
    || jsStartsWith conversation.title "[Chat]"

/-- The upstream calls the title block issues (one `generateObject` call when
triggered, whether it succeeds or throws). -/
def titleCalls (env : Env) (cid : String) (conversation : Conversation)
    (clientMsg : UIMessage) : List UpstreamCall :=
  if titleTriggered env cid conversation clientMsg then [.titleGeneration]
  else []

/-- The conversation-title update the title block writes: the generated title
on success; nothing when the call throws (the catch only logs) or when the
trigger is off. -/
def titleOutcome (env : Env) (cid : String) (conversation : Conversation)
    (clientMsg : UIMessage) : Option String :=
  if titleTriggered env cid conversation clientMsg then
    match env.titleGen with
    | .ok t => some t
    | .error _ => none
  else none

/-- The user-message insert (`db.insert(schema.chatMessages).values({...})`
before generation): role `user`, the caller's parts, status `received`,
`referenceId` the client message id; `version` omitted, so schema default 0. -/
def mkUserRow (conversationId : String) (message : UIMessage) : InsertedMessage :=
  { conversationId := conversationId
    role := "user"
    parts := message.parts
    version := 0
    status := "received"
    referenceId := message.id
    hasUsageDetails := false }

/-- One assistant-output insert performed by the streaming `onFinish`
callback: role collapsed to `assistant`/`tool`, status `sent`, explicit
`version: 1`, usage telemetry attached in `details`. -/
def mkFinishRow (conversationId : String) (m : FinishMessage) : InsertedMessage :=
  { conversationId := conversationId
    role := if m.role == "assistant" then "assistant" else "tool"
    parts := m.content
    version := 1
    status := "sent"
    referenceId := m.id
    hasUsageDetails := true }

/-- The main POST flow once the conversation and model rows are resolved:
title synthesis (guarded, failures swallowed), user-message insert, then the
streaming or batch generation with its persistence and response.  The
`X-Stream` header selects `streamText` (assistant rows inserted by `onFinish`)
versus `generateText` (no assistant insert on that path in the source); a
thrown `generateText` is handled by the outer catch, which returns the bare
generic error object (framework-default status 200). -/
def gatewayCore (env : Env) (req : Request) (cid : String)
    (conversation : Conversation) (modelConfig : ModelConfig) : ActionResult :=
  let userRow := mkUserRow conversation.id req.body.message
  let wrapped : Bool :=
    (req.headerReasoning == some "true") && modelConfig.detailsHasReasoning.getD false
  if req.headerStream = some "true" then
    { status := 200
      body := .stream
      inserted := userRow :: env.streamMessages.map (mkFinishRow conversation.id)
      titleUpdated := titleOutcome env cid conversation req.body.message
      calls := titleCalls env cid conversation req.body.message ++ [.textGeneration]
      reasoningWrapped := wrapped }
  else
    match env.batchGen with
    | .ok text =>
      { status := 200
        body := .successText text
        inserted := [userRow]
        titleUpdated := titleOutcome env cid conversation req.body.message
        calls := titleCalls env cid conversation req.body.message ++ [.textGeneration]
        reasoningWrapped := wrapped }
    | .error _ =>
      { status := 200
        body := .errorBody "Failed to generate text"
        inserted := [userRow]
        titleUpdated := titleOutcome env cid conversation req.body.message
        calls := titleCalls env cid conversation req.body.message ++ [.textGeneration]
        reasoningWrapped := wrapped }

/-- The DELETE branch: ownership lookup, then soft-delete of the conversation
and cascading soft-delete of its messages. -/
def deleteBranch (env : Env) (req : Request) : ActionResult :=
  match req.conversationId with
  | none => { status := 400, body := .errorBody "Invalid conversation ID" }
  | some cid =>
    match env.conversations.find? (deleteConversationQuery cid req.userId) with
    | none => { status := 404, body := .errorBody "Conversation not found" }
    | some _ =>
      { status := 200
        body := .successMessage "Conversation deleted successfully"
        softDeletedConversation := some cid }

/-- The route `action`: DELETE branch, method guard, conversation-id guard,
ownership lookup (404 on miss, same payload as a nonexistent id), model
registry lookup (400 on miss), then the main flow. -/
def action (env : Env) (req : Request) : ActionResult :=
  if req.method = "DELETE" then deleteBranch env req
  else if req.method ≠ "POST" then
    { status := 405, body := .methodNotAllowed }
  else
    match req.conversationId with
    | none => { status := 400, body := .errorBody "Invalid conversation ID" }
    | some cid =>
      match env.conversations.find? (conversationQuery cid req.userId) with
      | none => { status := 404, body := .errorBody "Invalid conversation ID" }
      | some conversation =>
        match env.models.find? (modelQuery req.body.modelId) with
        | none => { status := 400, body := .errorBody "Invalid model configuration" }
        | some modelConfig => gatewayCore env req cid conversation modelConfig

/-! ### Concrete fixtures for witnesses and counterexamples -/

/-- The OpenAI provider row. -/
def provOpenAI : Provider := { slug := "openai", azureOpenAIResourceName := none }

/-- An active, non-deleted registry model. -/
def gptModel : ModelConfig :=
  { id := "model-1", slug := "gpt-4.1-mini", provider := provOpenAI
    detailsHasReasoning := some false, isDeleted := false }

/-- A soft-deleted registry model. -/
def deletedModel : ModelConfig :=
  { id := "model-del", slug := "old-model", provider := provOpenAI
    detailsHasReasoning := none, isDeleted := true }

/-- Alice's conversation, already retitled (no `[Chat]` placeholder prefix). -/
def aliceConversation : Conversation :=
  { id := "conv-1", title := "Weather talk", userId := "alice", isDeleted := false }

/-- Bob's conversation (for the ownership-isolation scenario). -/
def bobConversation : Conversation :=
  { id := "conv-2", title := "Bob plans", userId := "bob", isDeleted := false }

/-- The inbound client message. -/
def clientMessage : UIMessage :=
  { id := "cmsg-1", role := "user", parts := [{ type := "text", text := "hi" }] }

/-- The POST body selecting the active model. -/
def baseBody : RequestProps :=
  { message := clientMessage, id := "cmsg-1", modelId := "model-1" }

/-- A batch-mode POST by Alice for her conversation. -/
def batchRequest : Request :=
  { method := "POST", conversationId := some "conv-1", userId := "alice"
    body := baseBody, headerStream := some "false", headerReasoning := none }

/-- The same request with `X-Stream: "true"`. -/
def streamRequest : Request := { batchRequest with headerStream := some "true" }

/-- A prior user message stored in Alice's conversation. -/
def priorUserMsg : StoredMessage :=
  { id := "m1", conversationId := "conv-1", role := "user"
    parts := [{ type := "text", text := "earlier question" }]
    version := 0, isDeleted := false }

/-- A prior assistant message stored in Alice's conversation. -/
def priorAssistantMsg : StoredMessage :=
  { id := "m2", conversationId := "conv-1", role := "assistant"
    parts := [{ type := "text", text := "earlier answer" }]
    version := 0, isDeleted := false }

/-- One assistant message delivered to the streaming `onFinish` callback. -/
def finishAssistantMsg : FinishMessage :=
  { id := "resp-1", role := "assistant"
    content := [{ type := "text", text := "hello there" }] }

/-- A healthy environment: Alice's conversation with two prior messages, the
active model, succeeding upstream calls. -/
def baseEnv : Env :=
  { conversations := [aliceConversation]
    models := [gptModel]
    messages := [priorUserMsg, priorAssistantMsg]
    titleGen := .ok "Synthesized title"
    batchGen := .ok "hello there"
    streamMessages := [finishAssistantMsg] }

/-- Environment for the soft-deleted-model scenario. -/
def envDeletedModel : Env := { baseEnv with models := [deletedModel] }

/-- POST body naming the soft-deleted model. -/
def deletedModelRequest : Request :=
  { batchRequest with body := { baseBody with modelId := "model-del" } }

/-- Environment where Alice's conversation has exactly one prior message and a
non-default title (a retry after a failed first generation, say). -/
def envOnePrior : Env := { baseEnv with messages := [priorUserMsg] }

/-- Environment whose only conversation belongs to Bob. -/
def envForeign : Env := { baseEnv with conversations := [bobConversation] }

/-- Alice requests Bob's conversation. -/
def foreignRequest : Request := { batchRequest with conversationId := some "conv-2" }

/-- Environment with no conversations at all. -/
def envNoConversations : Env := { baseEnv with conversations := [] }

/-- Alice requests a conversation id that does not exist. -/
def missingRequest : Request := { batchRequest with conversationId := some "conv-404" }

/-- Environment where both upstream calls throw (e.g. bad credentials). -/
def envUpstreamFailure : Env :=
  { baseEnv with
    titleGen := .error "OpenAI 401: bad api key"
    batchGen := .error "OpenAI 401: bad api key" }

/-- A conversation still carrying the default `[Chat] <timestamp>` title. -/
def placeholderConversation : Conversation :=
  { id := "conv-1", title := "[Chat] 2025-01-01 10:00:00", userId := "alice"
    isDeleted := false }

/-- Environment where the title is still the placeholder and the title model
throws. -/
def envTitleFailure : Env :=
  { baseEnv with
    conversations := [placeholderConversation]
    titleGen := .error "title model down" }

/-! ### Helper lemmas: substring search -/

theorem isPrefixOf_append_right {sub l d : List Char}
    (h : sub.isPrefixOf l = true) : sub.isPrefixOf (l ++ d) = true := by
  induction sub generalizing l with
  | nil => simp [List.isPrefixOf]
  | cons x xs ih =>
    cases l with
    | nil => simp [List.isPrefixOf] at h
    | cons y ys =>
      simp only [List.isPrefixOf, Bool.and_eq_true] at h ⊢
      exact ⟨h.1, ih h.2⟩

theorem isPrefixOf_self_append (l d : List Char) :
    l.isPrefixOf (l ++ d) = true := by
  induction l with
  | nil => simp [List.isPrefixOf]
  | cons x xs ih => simp [List.isPrefixOf, ih]

theorem occursIn_of_isPrefixOf {sub hay : List Char}
    (h : sub.isPrefixOf hay = true) : occursIn sub hay = true := by
  cases hay with
  | nil =>
    cases sub with
    | nil => rfl
    | cons x xs => simp [List.isPrefixOf] at h
  | cons c rest => simp [occursIn, h]

theorem occursIn_append_right {sub g d : List Char}
    (h : occursIn sub g = true) : occursIn sub (g ++ d) = true := by
  induction g with
  | nil =>
    have hsub : sub = [] := by
      cases sub with
      | nil => rfl
      | cons x xs => simp [occursIn, List.isEmpty] at h
    subst hsub
    cases d with
    | nil => rfl
    | cons c rest => simp [occursIn, List.isPrefixOf]
  | cons c rest ih =>
    simp only [occursIn, Bool.or_eq_true] at h
    rcases h with h | h
    · have := isPrefixOf_append_right (d := d) h
      simp only [List.cons_append, occursIn, Bool.or_eq_true]
      exact Or.inl (by simpa using this)
    · simp only [List.cons_append, occursIn, Bool.or_eq_true]
      exact Or.inr (ih h)

theorem occursIn_self_append (sub d : List Char) :
    occursIn sub (sub ++ d) = true :=
  occursIn_of_isPrefixOf (isPrefixOf_self_append sub d)

/-! ### Helper lemmas: the stream transform -/

theorem runTransform_count_zero_of_occurs {g : List Char}
    (cs : List StreamPart) (h : occursIn thinkTag g = true) :
    (runTransform g cs).2 = 0 := by
  induction cs generalizing g with
  | nil => rfl
  | cons c cs ih =>
    cases c with
    | textDelta d =>
      simp only [runTransform, transformStep, h, Bool.not_true, Bool.false_eq_true,
        if_false]
      simpa using ih (occursIn_append_right h)
    | otherChunk k =>
      simp only [runTransform, transformStep]
      simpa using ih h

theorem runTransform_append_other {g : List Char}
    (pre rest : List StreamPart)
    (hpre : ∀ c ∈ pre, isTextDelta c = false) :
    runTransform g (pre ++ rest) =
      (pre ++ (runTransform g rest).1, (runTransform g rest).2) := by
  induction pre with
  | nil => simp
  | cons c pre ih =>
    cases c with
    | textDelta d =>
      have hfalse := hpre (StreamPart.textDelta d) (by simp)
      simp [isTextDelta] at hfalse
    | otherChunk k =>
      have := ih (fun c hc => hpre c (by simp [hc]))
      simp only [List.cons_append, runTransform, transformStep, this]
      simp [this]

/-! ### Helper lemmas: the orchestrator -/

theorem appendClientMessage_length_eq_one (ms : List UIMessage) (msg : UIMessage) :
    (appendClientMessage ms msg).length = 1 ↔
      ms = [] ∨ ∃ m, ms = [m] ∧ m.id = msg.id := by
  unfold appendClientMessage
  cases hlast : ms.getLast? with
  | none =>
    have : ms = [] := List.getLast?_eq_none_iff.mp hlast
    subst this
    simp
  | some last =>
    have hmatch : (match some last with
        | some l => if l.id = msg.id then ms.dropLast ++ [msg] else ms ++ [msg]
        | none => [msg]) =
          if last.id = msg.id then ms.dropLast ++ [msg] else ms ++ [msg] := rfl
    rw [hmatch]
    have hne : ms ≠ [] := by
      intro e
      subst e
      simp at hlast
    by_cases hid : last.id = msg.id
    · rw [if_pos hid]
      have hlen : (ms.dropLast ++ [msg]).length = ms.length := by
        have h1 : 1 ≤ ms.length := List.length_pos.mpr hne
        simp [List.length_dropLast]
        omega
      rw [hlen]
      constructor
      · intro h1
        rcases List.length_eq_one.mp h1 with ⟨m, hm⟩
        subst hm
        simp at hlast
        subst hlast
        exact Or.inr ⟨_, rfl, hid⟩
      · rintro (h | ⟨m, hm, _⟩)
        · exact absurd h hne
        · subst hm
          rfl
    · rw [if_neg hid]
      have hlen : (ms ++ [msg]).length = ms.length + 1 := by simp
      rw [hlen]
      have h1 : 1 ≤ ms.length := List.length_pos.mpr hne
      constructor
      · intro h2
        omega
      · rintro (h | ⟨m, hm, hmid⟩)
        · exact absurd h hne
        · subst hm
          simp at hlast
          subst hlast
          exact absurd hmid hid

theorem action_main (env : Env) (req : Request) (cid : String)
    (conversation : Conversation) (modelConfig : ModelConfig)
    (hm : req.method = "POST")
    (hcid : req.conversationId = some cid)
    (hconv : env.conversations.find? (conversationQuery cid req.userId) =
      some conversation)
    (hmodel : env.models.find? (modelQuery req.body.modelId) = some modelConfig) :
    action env req = gatewayCore env req cid conversation modelConfig := by
  unfold action
  rw [if_neg (by rw [hm]; decide)]
  rw [if_neg (by rw [hm]; simp)]
  rw [hcid]
  simp only [hconv, hmodel]

theorem action_rejected_conversation (env : Env) (req : Request) (cid : String)
    (hm : req.method = "POST")
    (hcid : req.conversationId = some cid)
    (hconv : env.conversations.find? (conversationQuery cid req.userId) = none) :
    action env req =
      { status := 404, body := .errorBody "Invalid conversation ID" } := by
  unfold action
  rw [if_neg (by rw [hm]; decide)]
  rw [if_neg (by rw [hm]; simp)]
  rw [hcid]
  simp only [hconv]

theorem action_rejected_model (env : Env) (req : Request) (cid : String)
    (conversation : Conversation)
    (hm : req.method = "POST")
    (hcid : req.conversationId = some cid)
    (hconv : env.conversations.find? (conversationQuery cid req.userId) =
      some conversation)
    (hmodel : env.models.find? (modelQuery req.body.modelId) = none) :
    action env req =
      { status := 400, body := .errorBody "Invalid model configuration" } := by
  unfold action
  rw [if_neg (by rw [hm]; decide)]
  rw [if_neg (by rw [hm]; simp)]
  rw [hcid]
  simp only [hconv, hmodel]

theorem gatewayCore_inserted_head (env : Env) (req : Request) (cid : String)
    (conversation : Conversation) (modelConfig : ModelConfig) :
    (gatewayCore env req cid conversation modelConfig).inserted.head? =
      some (mkUserRow conversation.id req.body.message) := by
  unfold gatewayCore
  split
  · rfl
  · split <;> rfl

theorem gatewayCore_calls (env : Env) (req : Request) (cid : String)
    (conversation : Conversation) (modelConfig : ModelConfig) :
    (gatewayCore env req cid conversation modelConfig).calls =
      titleCalls env cid conversation req.body.message ++ [.textGeneration] := by
  unfold gatewayCore
  split
  · rfl
  · split <;> rfl

theorem gatewayCore_titleUpdated (env : Env) (req : Request) (cid : String)
    (conversation : Conversation) (modelConfig : ModelConfig) :
    (gatewayCore env req cid conversation modelConfig).titleUpdated =
      titleOutcome env cid conversation req.body.message := by
  unfold gatewayCore
  split
  · rfl
  · split <;> rfl

theorem map_eq_singleton {α β : Type} {f : α → β} {l : List α} {b : β}
    (h : l.map f = [b]) : ∃ a, l = [a] ∧ f a = b := by
  cases l with
  | nil => simp at h
  | cons x xs =>
    cases xs with
    | nil =>
      simp at h
      exact ⟨x, rfl, h⟩
    | cons y ys => simp at h

theorem titleTriggered_iff (env : Env) (cid : String)
    (conversation : Conversation) (clientMsg : UIMessage) :
    titleTriggered env cid conversation clientMsg = true ↔
      (previousMessagesFor env cid = [] ∨
        (∃ m, previousMessagesFor env cid = [m] ∧ m.id = clientMsg.id) ∨
        jsStartsWith conversation.title "[Chat]" = true) := by
  unfold titleTriggered messagesAfterAppend
  rw [Bool.or_eq_true, beq_iff_eq, appendClientMessage_length_eq_one]
  constructor
  · rintro ((h | ⟨m, hm, hid⟩) | h)
    · exact Or.inl (by simpa using h)
    · rcases map_eq_singleton hm with ⟨sm, hsm, hmap⟩
      refine Or.inr (Or.inl ⟨sm, hsm, ?_⟩)
      rw [← hid, ← hmap]
      rfl
    · exact Or.inr (Or.inr h)
  · rintro (h | ⟨sm, hsm, hid⟩ | h)
    · exact Or.inl (Or.inl (by simp [h]))
    · refine Or.inl (Or.inr ⟨storedToUIMessage sm, by simp [hsm], ?_⟩)
      rw [← hid]
      rfl
    · exact Or.inr h

theorem mem_titleGeneration_calls (env : Env) (cid : String)
    (conversation : Conversation) (clientMsg : UIMessage) :
    UpstreamCall.titleGeneration ∈
        titleCalls env cid conversation clientMsg ++ [UpstreamCall.textGeneration] ↔
      titleTriggered env cid conversation clientMsg = true := by
  unfold titleCalls
  by_cases h : titleTriggered env cid conversation clientMsg = true
  · simp [h]
  · simp only [Bool.not_eq_true] at h
    simp [h]

/-! ### Claim theorems -/

/-- Claim C3 (confirmed): in the reasoning stream transform, once the
accumulated text contains the opening tag `<think>` no further synthetic
opening tag is ever inserted; and for a stream whose own accumulated text
never contains the tag, exactly one synthetic opening-tag chunk is emitted,
placed immediately before the first real text-delta chunk is forwarded. -/
theorem claim_c3_stream_tag_injection :
    (∀ (g : List Char) (cs : List StreamPart),
        occursIn thinkTag g = true → (runTransform g cs).2 = 0) ∧
    (∀ (cs pre post : List StreamPart) (d : List Char),
        cs = pre ++ StreamPart.textDelta d :: post →
        (∀ c ∈ pre, isTextDelta c = false) →
        occursIn thinkTag (deltasText cs) = false →
        (runTransform [] cs).2 = 1 ∧
        ∃ rest, (runTransform [] cs).1 =
          pre ++ StreamPart.textDelta thinkTag :: StreamPart.textDelta d :: rest) := by
  constructor
  · intro g cs h
    exact runTransform_count_zero_of_occurs cs h
  · intro cs pre post d hcs hpre _hno
    subst hcs
    have hsplit := runTransform_append_other (g := [])
      pre (StreamPart.textDelta d :: post) hpre
    have hstep : runTransform ([] : List Char) (StreamPart.textDelta d :: post) =
        (StreamPart.textDelta thinkTag :: StreamPart.textDelta d ::
            (runTransform (thinkTag ++ d) post).1,
          1 + (runTransform (thinkTag ++ d) post).2) := by
      simp only [runTransform, transformStep]
      rw [show occursIn thinkTag [] = false from by decide]
      simp
    have hzero : (runTransform (thinkTag ++ d) post).2 = 0 :=
      runTransform_count_zero_of_occurs post (occursIn_self_append thinkTag d)
    constructor
    · rw [hsplit, hstep]
      simp [hzero]
    · refine ⟨(runTransform (thinkTag ++ d) post).1, ?_⟩
      rw [hsplit, hstep]

/-- Witness for C3: from a tag-containing accumulated state no insertion
happens, and a concrete tagless stream (one metadata chunk, one text delta)
gets exactly one synthetic tag chunk, right before the first delta. -/
theorem claim_c3_stream_tag_injection_witness :
    (runTransform "<think>x".data [StreamPart.textDelta "y".data]).2 = 0 ∧
    ((runTransform [] [StreamPart.otherChunk "response-metadata",
        StreamPart.textDelta "hi".data]).2 = 1 ∧
      ∃ rest, (runTransform [] [StreamPart.otherChunk "response-metadata",
          StreamPart.textDelta "hi".data]).1 =
        [StreamPart.otherChunk "response-metadata"] ++
          StreamPart.textDelta thinkTag :: StreamPart.textDelta "hi".data :: rest) :=
  ⟨claim_c3_stream_tag_injection.1 "<think>x".data
      [StreamPart.textDelta "y".data] (by decide),
   claim_c3_stream_tag_injection.2 _ [StreamPart.otherChunk "response-metadata"]
      [] "hi".data rfl (by decide) (by decide)⟩

/-- Claim C6 counterexample: the claim says the middleware prepends the tag
whenever the text does not START with `<think>`; but for
`"a<think>b"` — which does not start with the tag yet contains it — the
code's `includes` guard leaves the text unchanged, so no prepend happens. -/
theorem claim_c6_counterexample :
    thinkTag.isPrefixOf "a<think>b".data = false ∧
    wrapGenerateText (some "a<think>b".data) = some "a<think>b".data ∧
    ¬ wrapGenerateText (some "a<think>b".data) =
        some (thinkTag ++ "a<think>b".data) := by
  decide

/-- Claim C6 (corrected): `wrapGenerate` prepends `<think>` exactly when the
returned text does not CONTAIN the tag anywhere (`includes`, not
`startsWith`); text containing the tag — in particular text starting with
it — is left unchanged. -/
theorem claim_c6_amended (t : List Char) :
    (occursIn thinkTag t = false →
      wrapGenerateText (some t) = some (thinkTag ++ t)) ∧
    (occursIn thinkTag t = true → wrapGenerateText (some t) = some t) ∧
    (thinkTag.isPrefixOf t = true → wrapGenerateText (some t) = some t) := by
  refine ⟨fun h => ?_, fun h => ?_, fun h => ?_⟩
  · simp [wrapGenerateText, h, jsTemplateString]
  · simp [wrapGenerateText, h]
  · simp [wrapGenerateText, occursIn_of_isPrefixOf h]

/-- Witness for the amended C6 at concrete texts. -/
theorem claim_c6_amended_witness :
    wrapGenerateText (some "abc".data) = some (thinkTag ++ "abc".data) ∧
    wrapGenerateText (some "<think>x".data) = some "<think>x".data :=
  ⟨(claim_c6_amended "abc".data).1 (by decide),
   (claim_c6_amended "<think>x".data).2.2 (by decide)⟩

/-- Claim C10 (confirmed): with no upstream text (`result.text` undefined),
`wrapGenerate` still fires and string interpolation turns the text into the
literal `"<think>undefined"` instead of leaving it absent. -/
theorem claim_c10_undefined_text :
    wrapGenerateText none = some "<think>undefined".data ∧
    ¬ wrapGenerateText none = none := by
  decide

/-- Claim C2 (confirmed): when no registry row matches the requested model id
or the matching row is soft-deleted, the request is rejected with a 400-class
status before any upstream call, and no message row is inserted. -/
theorem claim_c2_invalid_model (env : Env) (req : Request) (cid : String)
    (hm : req.method = "POST")
    (hcid : req.conversationId = some cid)
    (hmodel : ∀ m ∈ env.models, m.id = req.body.modelId → m.isDeleted = true) :
    (400 ≤ (action env req).status ∧ (action env req).status < 500) ∧
    (action env req).inserted = [] ∧ (action env req).calls = [] := by
  have hfind : env.models.find? (modelQuery req.body.modelId) = none := by
    rw [List.find?_eq_none]
    intro m hmem hq
    simp only [modelQuery, Bool.and_eq_true, beq_iff_eq, Bool.not_eq_true'] at hq
    have h2 := hmodel m hmem hq.1
    rw [hq.2] at h2
    exact absurd h2 (by decide)
  cases hconv : env.conversations.find? (conversationQuery cid req.userId) with
  | none =>
    rw [action_rejected_conversation env req cid hm hcid hconv]
    exact ⟨⟨by decide, by decide⟩, rfl, rfl⟩
  | some conversation =>
    rw [action_rejected_model env req cid conversation hm hcid hconv hfind]
    exact ⟨⟨by decide, by decide⟩, rfl, rfl⟩

/-- Witness for C2: the concrete soft-deleted-model request is rejected with
status 400, zero inserts, zero upstream calls. -/
theorem claim_c2_witness :
    (400 ≤ (action envDeletedModel deletedModelRequest).status ∧
      (action envDeletedModel deletedModelRequest).status < 500) ∧
    (action envDeletedModel deletedModelRequest).inserted = [] ∧
    (action envDeletedModel deletedModelRequest).calls = [] :=
  claim_c2_invalid_model envDeletedModel deletedModelRequest "conv-1"
    rfl rfl (by decide)

/-- Claim C4 (confirmed): a POST for a conversation owned by a different user
produces exactly the same outcome — 404, payload "Invalid conversation ID",
no inserts — as a POST for a conversation id that does not exist at all. -/
theorem claim_c4_ownership_isolation
    (env1 : Env) (req1 : Request) (cid1 : String)
    (env2 : Env) (req2 : Request) (cid2 : String)
    (hm1 : req1.method = "POST") (hc1 : req1.conversationId = some cid1)
    (_hexists : ∃ c ∈ env1.conversations,
      c.id = cid1 ∧ c.isDeleted = false ∧ ¬ c.userId = req1.userId)
    (hall : ∀ c ∈ env1.conversations,
      c.id = cid1 → c.isDeleted = false → ¬ c.userId = req1.userId)
    (hm2 : req2.method = "POST") (hc2 : req2.conversationId = some cid2)
    (hnone : ∀ c ∈ env2.conversations, ¬ c.id = cid2) :
    action env1 req1 = action env2 req2 ∧
    (action env1 req1).status = 404 ∧
    (action env1 req1).body = .errorBody "Invalid conversation ID" ∧
    (action env1 req1).inserted = [] := by
  have hf1 : env1.conversations.find? (conversationQuery cid1 req1.userId) = none := by
    rw [List.find?_eq_none]
    intro c hmem hq
    simp only [conversationQuery, Bool.and_eq_true, beq_iff_eq,
      Bool.not_eq_true'] at hq
    exact hall c hmem hq.1.1 hq.1.2 hq.2
  have hf2 : env2.conversations.find? (conversationQuery cid2 req2.userId) = none := by
    rw [List.find?_eq_none]
    intro c hmem hq
    simp only [conversationQuery, Bool.and_eq_true, beq_iff_eq,
      Bool.not_eq_true'] at hq
    exact hnone c hmem hq.1.1
  rw [action_rejected_conversation env1 req1 cid1 hm1 hc1 hf1,
    action_rejected_conversation env2 req2 cid2 hm2 hc2 hf2]
  exact ⟨rfl, rfl, rfl, rfl⟩

/-- Witness for C4: Alice requesting Bob's conversation versus Alice
requesting a nonexistent id — identical results. -/
theorem claim_c4_witness :
    action envForeign foreignRequest = action envNoConversations missingRequest ∧
    (action envForeign foreignRequest).status = 404 ∧
    (action envForeign foreignRequest).body = .errorBody "Invalid conversation ID" ∧
    (action envForeign foreignRequest).inserted = [] :=
  claim_c4_ownership_isolation envForeign foreignRequest "conv-2"
    envNoConversations missingRequest "conv-404"
    rfl rfl (by decide) (by decide) rfl rfl (by decide)

/-- Claim C5 counterexample: when `generateText` throws, the catch block
returns the bare generic-error object, which the framework serializes with
its default status 200 — not a 5xx server-error status as claimed. -/
theorem claim_c5_counterexample :
    (action envUpstreamFailure batchRequest).body =
      .errorBody "Failed to generate text" ∧
    (action envUpstreamFailure batchRequest).status = 200 ∧
    ¬ 500 ≤ (action envUpstreamFailure batchRequest).status := by
  decide

/-- Claim C5 (corrected): for every non-streaming request whose generation
call throws, the payload is exactly the generic
`{success:false, error:"Failed to generate text"}` and is independent of the
upstream error detail; but it is returned with the framework-default status
200 (no explicit 5xx is set by the catch block). -/
theorem claim_c5_amended (env : Env) (req : Request) (cid : String)
    (conversation : Conversation) (modelConfig : ModelConfig) (emsg : String)
    (hm : req.method = "POST")
    (hcid : req.conversationId = some cid)
    (hconv : env.conversations.find? (conversationQuery cid req.userId) =
      some conversation)
    (hmodel : env.models.find? (modelQuery req.body.modelId) = some modelConfig)
    (hstream : ¬ req.headerStream = some "true")
    (hgen : env.batchGen = .error emsg) :
    (action env req).body = .errorBody "Failed to generate text" ∧
    (action env req).status = 200 ∧
    ∀ emsg2, action { env with batchGen := .error emsg2 } req = action env req := by
  have hrun := action_main env req cid conversation modelConfig hm hcid hconv hmodel
  have hcore : gatewayCore env req cid conversation modelConfig =
      { status := 200
        body := .errorBody "Failed to generate text"
        inserted := [mkUserRow conversation.id req.body.message]
        titleUpdated := titleOutcome env cid conversation req.body.message
        calls := titleCalls env cid conversation req.body.message ++ [.textGeneration]
        reasoningWrapped := (req.headerReasoning == some "true") &&
          modelConfig.detailsHasReasoning.getD false } := by
    unfold gatewayCore
    rw [if_neg hstream, hgen]
  refine ⟨by rw [hrun, hcore], by rw [hrun, hcore], ?_⟩
  intro emsg2
  have hrun2 := action_main { env with batchGen := Except.error emsg2 } req cid
    conversation modelConfig hm hcid hconv hmodel
  rw [hrun, hrun2, hcore]
  unfold gatewayCore
  rw [if_neg hstream]
  rfl

/-- Witness for the amended C5: concrete failing generation — exact generic
payload, status 200, and the response does not depend on the upstream error
text. -/
theorem claim_c5_amended_witness :
    (action envUpstreamFailure batchRequest).body =
      .errorBody "Failed to generate text" ∧
    (action envUpstreamFailure batchRequest).status = 200 ∧
    action { envUpstreamFailure with batchGen := .error "different secret detail" }
        batchRequest =
      action envUpstreamFailure batchRequest :=
  ⟨(claim_c5_amended envUpstreamFailure batchRequest "conv-1" aliceConversation
      gptModel "OpenAI 401: bad api key" rfl rfl (by decide) (by decide)
      (by decide) rfl).1,
   (claim_c5_amended envUpstreamFailure batchRequest "conv-1" aliceConversation
      gptModel "OpenAI 401: bad api key" rfl rfl (by decide) (by decide)
      (by decide) rfl).2.1,
   (claim_c5_amended envUpstreamFailure batchRequest "conv-1" aliceConversation
      gptModel "OpenAI 401: bad api key" rfl rfl (by decide) (by decide)
      (by decide) rfl).2.2 "different secret detail"⟩


/-- Claim C7 counterexample: a conversation with exactly one prior message and
a non-default title — the claim demands a title-synthesis attempt, but the
handler tests `messages.length === 1` AFTER appending the new client message
(length 2 here), so no attempt is made. -/
theorem claim_c7_counterexample :
    (previousMessagesFor envOnePrior "conv-1").length = 1 ∧
    jsStartsWith aliceConversation.title "[Chat]" = false ∧
    ¬ UpstreamCall.titleGeneration ∈ (action envOnePrior batchRequest).calls := by
  decide

/-- Claim C7 (corrected): title synthesis is attempted iff the post-append
message list has length one — i.e. the conversation has zero prior non-tool,
non-deleted messages, or exactly one whose id equals the incoming client
message's id (a retry) — OR the title still starts with the `[Chat]`
placeholder prefix. -/
theorem claim_c7_amended (env : Env) (req : Request) (cid : String)
    (conversation : Conversation) (modelConfig : ModelConfig)
    (hm : req.method = "POST")
    (hcid : req.conversationId = some cid)
    (hconv : env.conversations.find? (conversationQuery cid req.userId) =
      some conversation)
    (hmodel : env.models.find? (modelQuery req.body.modelId) = some modelConfig) :
    UpstreamCall.titleGeneration ∈ (action env req).calls ↔
      (previousMessagesFor env cid = [] ∨
        (∃ m, previousMessagesFor env cid = [m] ∧ m.id = req.body.message.id) ∨
        jsStartsWith conversation.title "[Chat]" = true) := by
  rw [action_main env req cid conversation modelConfig hm hcid hconv hmodel,
    gatewayCore_calls, mem_titleGeneration_calls, titleTriggered_iff]

/-- Witness for the amended C7: two prior messages and a non-default title —
both sides of the equivalence are false. -/
theorem claim_c7_amended_witness :
    UpstreamCall.titleGeneration ∈ (action baseEnv batchRequest).calls ↔
      (previousMessagesFor baseEnv "conv-1" = [] ∨
        (∃ m, previousMessagesFor baseEnv "conv-1" = [m] ∧
          m.id = batchRequest.body.message.id) ∨
        jsStartsWith aliceConversation.title "[Chat]" = true) :=
  claim_c7_amended baseEnv batchRequest "conv-1" aliceConversation gptModel
    rfl rfl (by decide) (by decide)

/-- Claim C8 (confirmed): a thrown title-synthesis call is swallowed: the user
message is still persisted (first inserted row), both upstream calls are still
attempted, no title is written, and the status, body, and inserted rows are
identical to what a successful title call would have produced. -/
theorem claim_c8_title_failure_swallowed (env : Env) (req : Request)
    (cid : String) (conversation : Conversation) (modelConfig : ModelConfig)
    (emsg : String)
    (hm : req.method = "POST")
    (hcid : req.conversationId = some cid)
    (hconv : env.conversations.find? (conversationQuery cid req.userId) =
      some conversation)
    (hmodel : env.models.find? (modelQuery req.body.modelId) = some modelConfig)
    (htrig : titleTriggered env cid conversation req.body.message = true)
    (htitle : env.titleGen = .error emsg) :
    (action env req).inserted.head? =
      some (mkUserRow conversation.id req.body.message) ∧
    UpstreamCall.titleGeneration ∈ (action env req).calls ∧
    UpstreamCall.textGeneration ∈ (action env req).calls ∧
    (action env req).titleUpdated = none ∧
    ∀ t, (action { env with titleGen := .ok t } req).status =
        (action env req).status ∧
      (action { env with titleGen := .ok t } req).body = (action env req).body ∧
      (action { env with titleGen := .ok t } req).inserted =
        (action env req).inserted := by
  have hrun := action_main env req cid conversation modelConfig hm hcid hconv hmodel
  refine ⟨?_, ?_, ?_, ?_, ?_⟩
  · rw [hrun]
    exact gatewayCore_inserted_head env req cid conversation modelConfig
  · rw [hrun, gatewayCore_calls]
    exact (mem_titleGeneration_calls env cid conversation req.body.message).mpr htrig
  · rw [hrun, gatewayCore_calls]
    simp
  · rw [hrun, gatewayCore_titleUpdated]
    unfold titleOutcome
    rw [if_pos htrig, htitle]
  · intro t
    have hrun2 := action_main { env with titleGen := Except.ok t } req cid
      conversation modelConfig hm hcid hconv hmodel
    rw [hrun, hrun2]
    unfold gatewayCore
    have hb : ({ env with titleGen := Except.ok t } : Env).batchGen =
      env.batchGen := rfl
    by_cases hs : req.headerStream = some "true"
    · rw [if_pos hs, if_pos hs]
      exact ⟨rfl, rfl, rfl⟩
    · rw [if_neg hs, if_neg hs, hb]
      cases hbg : env.batchGen with
      | ok tx => exact ⟨rfl, rfl, rfl⟩
      | error e => exact ⟨rfl, rfl, rfl⟩

/-- Witness for C8: placeholder-title conversation, failing title model — the
main batch turn still succeeds with its normal response. -/
theorem claim_c8_witness :
    (action envTitleFailure batchRequest).inserted.head? =
      some (mkUserRow placeholderConversation.id batchRequest.body.message) ∧
    UpstreamCall.titleGeneration ∈ (action envTitleFailure batchRequest).calls ∧
    UpstreamCall.textGeneration ∈ (action envTitleFailure batchRequest).calls ∧
    (action envTitleFailure batchRequest).titleUpdated = none ∧
    ((action { envTitleFailure with titleGen := .ok "Trip planning" }
        batchRequest).status = (action envTitleFailure batchRequest).status ∧
      (action { envTitleFailure with titleGen := .ok "Trip planning" }
        batchRequest).body = (action envTitleFailure batchRequest).body ∧
      (action { envTitleFailure with titleGen := .ok "Trip planning" }
        batchRequest).inserted = (action envTitleFailure batchRequest).inserted) :=
  ⟨(claim_c8_title_failure_swallowed envTitleFailure batchRequest "conv-1"
      placeholderConversation gptModel "title model down" rfl rfl (by decide)
      (by decide) (by decide) rfl).1,
   (claim_c8_title_failure_swallowed envTitleFailure batchRequest "conv-1"
      placeholderConversation gptModel "title model down" rfl rfl (by decide)
      (by decide) (by decide) rfl).2.1,
   (claim_c8_title_failure_swallowed envTitleFailure batchRequest "conv-1"
      placeholderConversation gptModel "title model down" rfl rfl (by decide)
      (by decide) (by decide) rfl).2.2.1,
   (claim_c8_title_failure_swallowed envTitleFailure batchRequest "conv-1"
      placeholderConversation gptModel "title model down" rfl rfl (by decide)
      (by decide) (by decide) rfl).2.2.2.1,
   (claim_c8_title_failure_swallowed envTitleFailure batchRequest "conv-1"
      placeholderConversation gptModel "title model down" rfl rfl (by decide)
      (by decide) (by decide) rfl).2.2.2.2 "Trip planning"⟩

/-- Claim C1 counterexample: a successful non-streaming turn — `generateText`
returns text, the handler answers `{success:true, text}` — yet no inserted row
has role `assistant`: the batch branch performs no assistant-message insert. -/
theorem claim_c1_counterexample :
    (action baseEnv batchRequest).status = 200 ∧
    (action baseEnv batchRequest).body = .successText "hello there" ∧
    ∀ r ∈ (action baseEnv batchRequest).inserted, ¬ r.role = "assistant" := by
  decide

/-- Claim C1 (corrected): on every successful non-streaming (batch) turn
exactly one row — the user's message — is persisted before the
`{success:true, text}` response; no assistant message is persisted on the
batch path (assistant rows are written only by the streaming path's
`onFinish`). -/
theorem claim_c1_amended (env : Env) (req : Request) (cid : String)
    (conversation : Conversation) (modelConfig : ModelConfig) (text : String)
    (hm : req.method = "POST")
    (hcid : req.conversationId = some cid)
    (hconv : env.conversations.find? (conversationQuery cid req.userId) =
      some conversation)
    (hmodel : env.models.find? (modelQuery req.body.modelId) = some modelConfig)
    (hstream : ¬ req.headerStream = some "true")
    (hgen : env.batchGen = .ok text) :
    (action env req).status = 200 ∧
    (action env req).body = .successText text ∧
    (action env req).inserted = [mkUserRow conversation.id req.body.message] ∧
    ∀ r ∈ (action env req).inserted, r.role = "user" := by
  have hrun := action_main env req cid conversation modelConfig hm hcid hconv hmodel
  have hcore : gatewayCore env req cid conversation modelConfig =
      { status := 200
        body := .successText text
        inserted := [mkUserRow conversation.id req.body.message]
        titleUpdated := titleOutcome env cid conversation req.body.message
        calls := titleCalls env cid conversation req.body.message ++ [.textGeneration]
        reasoningWrapped := (req.headerReasoning == some "true") &&
          modelConfig.detailsHasReasoning.getD false } := by
    unfold gatewayCore
    rw [if_neg hstream, hgen]
  rw [hrun, hcore]
  refine ⟨rfl, rfl, rfl, ?_⟩
  intro r hr
  rw [List.mem_singleton] at hr
  subst hr
  rfl

/-- Witness for the amended C1 at the concrete successful batch turn. -/
theorem claim_c1_amended_witness :
    (action baseEnv batchRequest).status = 200 ∧
    (action baseEnv batchRequest).body = .successText "hello there" ∧
    (action baseEnv batchRequest).inserted =
      [mkUserRow aliceConversation.id batchRequest.body.message] ∧
    ∀ r ∈ (action baseEnv batchRequest).inserted, r.role = "user" :=
  claim_c1_amended baseEnv batchRequest "conv-1" aliceConversation gptModel
    "hello there" rfl rfl (by decide) (by decide) (by decide) rfl

/-- Claim C9 counterexample: a streaming turn whose `onFinish` delivers one
assistant message — the gateway inserts that row with `version = 1`, not the
schema default 0 the claim asserts for every gateway insert. -/
theorem claim_c9_counterexample :
    (action baseEnv streamRequest).inserted.map InsertedMessage.version = [0, 1] ∧
    ∃ r ∈ (action baseEnv streamRequest).inserted, ¬ r.version = 0 := by
  decide

/-- Claim C9 (corrected): every gateway insert of a user message carries
`version = 0` (the schema default, the insert omitting the column), while
every assistant/tool row written by the streaming `onFinish` callback carries
the explicit `version = 1`. -/
theorem claim_c9_amended (env : Env) (req : Request) :
    ∀ r ∈ (action env req).inserted,
      (r.role = "user" ∧ r.version = 0) ∨ (¬ r.role = "user" ∧ r.version = 1) := by
  intro r hr
  unfold action at hr
  split at hr
  · unfold deleteBranch at hr
    split at hr
    · simp at hr
    · split at hr <;> simp at hr
  · split at hr
    · simp at hr
    · split at hr
      · simp at hr
      · split at hr
        · simp at hr
        · split at hr
          · simp at hr
          · unfold gatewayCore at hr
            split at hr
            · rw [List.mem_cons] at hr
              rcases hr with hr | hr
              · subst hr
                exact Or.inl ⟨rfl, rfl⟩
              · rcases List.mem_map.mp hr with ⟨m, _, hmap⟩
                subst hmap
                refine Or.inr ⟨?_, rfl⟩
                unfold mkFinishRow
                by_cases hrole : (m.role == "assistant") = true
                · simp only [hrole, if_true]
                  decide
                · rw [Bool.not_eq_true] at hrole
                  simp only [hrole, Bool.false_eq_true, if_false]
                  decide
            · split at hr
              · rw [List.mem_singleton] at hr
                subst hr
                exact Or.inl ⟨rfl, rfl⟩
              · rw [List.mem_singleton] at hr
                subst hr
                exact Or.inl ⟨rfl, rfl⟩

/-- Witness for the amended C9: the concrete streaming turn's user row. -/
theorem claim_c9_amended_witness :
    ((mkUserRow "conv-1" clientMessage).role = "user" ∧
      (mkUserRow "conv-1" clientMessage).version = 0) ∨
    (¬ (mkUserRow "conv-1" clientMessage).role = "user" ∧
      (mkUserRow "conv-1" clientMessage).version = 1) :=
  claim_c9_amended baseEnv streamRequest (mkUserRow "conv-1" clientMessage)
    (by decide)
